import Mathlib

/-!
Verification of the transaction-lifecycle engine of
`scripts/mcp-server.py` (Decentralized AI Legal Document Generator).

Python strings are embedded as `List Char` (`PyStr`); Python exceptions as
an explicit `PyErr` value threaded through `Except`; the ledger node and
its RPC answers as explicit environment records, so that every network
read/write the code performs is one environment field.  All definitions
below are translated directly from the source file; line numbers in the
comments refer to `scripts/mcp-server.py`.
-/

deriving instance DecidableEq for Except

/-- Python strings, embedded as lists of characters. -/
abbrev PyStr := List Char

/-- Coercion from a Lean string literal to the `PyStr` embedding. -/
def pstr (s : String) : PyStr := s.toList

/-- `str.lower()`. -/
def lowerStr (s : PyStr) : PyStr := s.map Char.toLower

/-- `str.upper()`. -/
def upperStr (s : PyStr) : PyStr := s.map Char.toUpper

/-- Does `hay` start with `needle` (helper for substring search). -/
def listStartsWith : PyStr → PyStr → Bool
  | _, [] => true
  | [], _ :: _ => false
  | a :: as, b :: bs => a == b && listStartsWith as bs

/-- Python `needle in hay` substring test. -/
def strContains : PyStr → PyStr → Bool
  | [], needle => needle.isEmpty
  | h :: t, needle => listStartsWith (h :: t) needle || strContains t needle

/-- Python `s.startswith("0x")` as used at mcp-server.py:343 and :74. -/
def startsWith0x : PyStr → Bool
  | '0' :: 'x' :: _ => true
  | _ => false

/-- Python `s.ljust(w, c)`: pad on the right to width `w`; a string already
at least `w` long is returned unchanged (no truncation). -/
def ljust (s : PyStr) (w : Nat) (c : Char) : PyStr :=
  s ++ List.replicate (w - s.length) c

/-- Python exception values relevant to the engine, each carrying `str(e)`. -/
inductive PyErr where
  | valueError (msg : PyStr)
  | connectionError (msg : PyStr)
  | timeExhausted (msg : PyStr)
  | otherError (msg : PyStr)
deriving DecidableEq, Repr

/-- `str(e)`: the message carried by the exception. -/
def PyErr.text : PyErr → PyStr
  | .valueError m => m
  | .connectionError m => m
  | .timeExhausted m => m
  | .otherError m => m

/-- Is the exception a Python `ValueError` (the only class the engine
catches separately)? -/
def PyErr.isValueError : PyErr → Bool
  | .valueError _ => true
  | _ => false

/-- One hexadecimal digit character (lowercase, as produced by `hex()`). -/
def hexDigitChar (n : Nat) : Char :=
  if n < 10 then Char.ofNat (48 + n) else Char.ofNat (87 + n)

/-- Big-endian fixed-width hex rendering: exactly `w` digits, leading
zeros kept — the format `HexBytes.hex()` produces for a `w/2`-byte value. -/
def hexPad : Nat → Nat → PyStr
  | 0, _ => []
  | w + 1, n => hexPad w (n / 16) ++ [ hexDigitChar (n % 16)]

/-- Modelled digest: `Web3.keccak(text=s).hex()` returns a deterministic
0x-prefixed 64-hex-character string (a 32-byte digest).  The keccak
permutation itself is outside the repository; it is modelled by a
deterministic stand-in with the same output format (0x + 64 hex digits),
which is the only property of the digest the code relies on. -/
def simpleHash (s : PyStr) : Nat :=
  s.foldl (fun a c => a * 131 + c.toNat + 17) 88

/-- `Web3.keccak(text=s).hex()` (see the note on `simpleHash`). -/
def keccakHex (s : PyStr) : PyStr :=
  '0' :: 'x' :: hexPad 64 (simpleHash s)

/-- `log.topics[1].hex()` for a 32-byte topic word holding value `t`
(mcp-server.py:279): 0x-prefixed, zero-padded to 64 hex digits. -/
def topicHex (t : Nat) : PyStr := '0' :: 'x' :: hexPad 64 t

/-- `int(log.topics[1].hex(), 16)` (mcp-server.py:257): the numeric value
of a 32-byte topic word. -/
def topicVal (t : Nat) : Nat := t % (2 ^ 256)

/-- Byte width of a 0x-prefixed hex string: two hex characters per byte. -/
def hexByteWidth (s : PyStr) : Nat := (s.length - 2) / 2

/-- One log entry of a transaction receipt.  A topic is a 32-byte word,
embedded by its numeric value. -/
structure LogEntry where
  address : PyStr
  topics : List Nat
deriving DecidableEq, Repr

/-- `TransactionReceipt` as read by the engine: status, block number and
the ordered list of event log entries. -/
structure Receipt where
  status : Nat
  blockNumber : Nat
  logs : List LogEntry
deriving DecidableEq, Repr

/-- The transaction dictionary built at mcp-server.py:166-171. -/
structure TransactionDict where
  chainId : Nat
  gas : Nat
  gasPrice : Nat
  nonce : Nat
deriving DecidableEq, Repr

/-- A signed payload: the transaction together with the signing key. -/
structure SignedTx where
  transaction : TransactionDict
  privateKey : PyStr
deriving DecidableEq, Repr

/-- Block identifier accepted by `eth.get_transaction_count`; web3's
default when no identifier is passed is `latest`. -/
inductive BlockId where
  | latest
  | pending
deriving DecidableEq, Repr

/-- The ledger-node environment seen by one `sign_and_send_transaction`
call: every RPC interaction the helper performs is one field, either a
value or the exception that the call raises. -/
structure ChainEnv where
  gasPrice : Except PyErr Nat
  txCountLatest : Except PyErr Nat
  txCountPending : Except PyErr Nat
  chainId : Except PyErr Nat
  buildResult : Except PyErr Unit
  signResult : Except PyErr Unit
  sendResult : Except PyErr PyStr
  waitResult : Except PyErr Receipt
deriving DecidableEq, Repr

/-- `provider.eth.get_transaction_count(address, block_identifier)`;
the code at mcp-server.py:163 passes no identifier, so web3 uses
`BlockId.latest`. -/
def getTransactionCount (env : ChainEnv) : BlockId → Except PyErr Nat
  | .latest => env.txCountLatest
  | .pending => env.txCountPending

/-- The observable steps of `sign_and_send_transaction`, in program
order, used to state ordering / abort-before-signing properties. -/
inductive TxStep where
  | readGasPrice
  | readNonce
  | readChainId
  | buildTx
  | signTx
  | sendTx
  | waitReceipt
deriving DecidableEq, Repr

/-- Full outcome of one `sign_and_send_transaction` call: the returned
receipt or raised exception, the trace of steps reached, and the signed
payload if signing happened. -/
structure SasOut where
  result : Except PyErr Receipt
  trace : List TxStep
  signedTx : Option SignedTx
deriving DecidableEq, Repr

/-- Body of the `try` block of `sign_and_send_transaction`
(mcp-server.py:156-187): read gas price and multiply by 1.1 (floored, as
`int(... * 1.1)`), read the transaction count (web3 default block
`latest`) as nonce, read the chain id while assembling the fixed-limit
transaction dictionary, sign, broadcast, wait for the receipt. -/
def signAndSendRaw (env : ChainEnv) (privateKey : PyStr) : SasOut :=
  match env.gasPrice with
  | .error e => ⟨.error e, [.readGasPrice], none⟩
  | .ok gp =>
    let gasPrice := gp * 11 / 10
    match getTransactionCount env BlockId.latest with
    | .error e => ⟨.error e, [.readGasPrice, .readNonce], none⟩
    | .ok nonce =>
      match env.chainId with
      | .error e => ⟨.error e, [.readGasPrice, .readNonce, .readChainId], none⟩
      | .ok cid =>
        match env.buildResult with
        | .error e =>
          ⟨.error e, [.readGasPrice, .readNonce, .readChainId, .buildTx], none⟩
        | .ok _ =>
          let transaction : TransactionDict :=
            { chainId := cid, gas := 2000000, gasPrice := gasPrice, nonce := nonce }
          match env.signResult with
          | .error e =>
            ⟨.error e,
             [.readGasPrice, .readNonce, .readChainId, .buildTx, .signTx], none⟩
          | .ok _ =>
            let signed : SignedTx := { transaction := transaction, privateKey := privateKey }
            match env.sendResult with
            | .error e =>
              ⟨.error e,
               [.readGasPrice, .readNonce, .readChainId, .buildTx, .signTx, .sendTx],
               some signed⟩
            | .ok _ =>
              match env.waitResult with
              | .error e =>
                ⟨.error e,
                 [.readGasPrice, .readNonce, .readChainId, .buildTx, .signTx,
                  .sendTx, .waitReceipt],
                 some signed⟩
              | .ok r =>
                ⟨.ok r,
                 [.readGasPrice, .readNonce, .readChainId, .buildTx, .signTx,
                  .sendTx, .waitReceipt],
                 some signed⟩

/-- `sign_and_send_transaction` (mcp-server.py:156-198): the raw body plus
its `except` clauses — a `ValueError` whose lowercased message contains
"insufficient funds" is re-raised wrapped in a new `ValueError`; every
other exception is re-raised unchanged. -/
def sign_and_send_transaction (env : ChainEnv) (privateKey : PyStr) : SasOut :=
  let raw := signAndSendRaw env privateKey
  match raw.result with
  | .error (.valueError m) =>
    if strContains (lowerStr m) (pstr ("insufficient funds")) then
      { raw with
        result := .error (.valueError ((pstr ("Wallet has insufficient funds: ")) ++ m)) }
    else raw
  | _ => raw

/-- The event-extraction loops of `generate_legal_document`
(mcp-server.py:253-257 and :275-279): fold over the receipt's logs in
array order; for each entry with more than one topic whose lowercased
address equals the lowercased owner-contract address, overwrite the
accumulator with `f topics[1]`.  There is no `break`, so a later match
overwrites an earlier one. -/
def extractLoop {α : Type} (f : Nat → α) (dflt : α)
    (ownerAddress : PyStr) (logs : List LogEntry) : α :=
  logs.foldl
    (fun acc lg =>
      if 1 < lg.topics.length ∧ lowerStr lg.address = lowerStr ownerAddress then
        f (lg.topics.getD 1 0)
      else acc)
    dflt

/-- The fallback document/request identifier
`"0x" + uuid.uuid4().hex[:24]` (mcp-server.py:274, :285, :293), given the
32-hex-character `uuid4().hex` drawn at that call site. -/
def fallbackId (u : PyStr) : PyStr := (pstr ("0x")) ++ u.take 24

/-- The inner `except` clauses of the blockchain block of
`generate_legal_document` (mcp-server.py:287-294): a `ValueError` is
re-raised; any other exception is swallowed and a simulated fallback
identifier is used. -/
def innerCatch (e : PyErr) (u : PyStr) : Except PyErr PyStr :=
  match e with
  | .valueError m => .error (.valueError m)
  | _ => .ok (fallbackId u)

/-- The f-string document template of `generate_legal_document`
(mcp-server.py:223-230). -/
def documentContent (documentType requirements : PyStr) : PyStr :=
  (pstr ("\n        ")) ++ upperStr documentType ++
  (pstr ("\n        \n        Based on the following requirements:\n        ")) ++
  requirements ++
  (pstr ("\n        \n        [Document content would be generated here in production]\n        "))

/-- The dictionary returned by `generate_legal_document`. -/
structure GenResult where
  success : Bool
  document_id : Option PyStr
  document_content : Option PyStr
  document_hash : Option PyStr
  message : PyStr
deriving DecidableEq, Repr

/-- Environment of one `generate_legal_document` call: the request
context attributes, the liveness answer, the owner contract address and
signing key, one `ChainEnv` per transaction the call sends
(`requestDocumentGeneration` then `fulfillDocumentRequest`), and the
`uuid4().hex` value drawn at whichever fallback site executes (at most
one of the three sites runs per call). -/
structure GenEnv where
  hasLifespanCtx : Bool
  hasMcpContract : Bool
  connected : Bool
  mcpIntegrationAddress : PyStr
  privateKey : PyStr
  chain1 : ChainEnv
  chain2 : ChainEnv
  uuidHex : PyStr
deriving DecidableEq, Repr

/-- Body of the outer `try` of `generate_legal_document`
(mcp-server.py:208-302): attribute checks, document templating and
hashing, then the blockchain block — when connected, send the request
transaction, extract the request id from its receipt (no `break`), send
the fulfil transaction, extract the document id from its receipt with a
random fallback default; when not connected, use a random simulated id.
Returns the success dictionary, or the exception that escapes to the
outer handlers. -/
def generateBody (env : GenEnv) (documentType requirements : PyStr) :
    Except PyErr GenResult :=
  if env.hasLifespanCtx = false then
    .error (.valueError (pstr ("Lifespan context not initialized")))
  else if env.hasMcpContract = false then
    .error (.valueError (pstr ("MCP integration contract not initialized in context")))
  else
    let content := documentContent documentType requirements
    let documentHash := keccakHex content
    let innerOutcome : Except PyErr PyStr :=
      if env.connected then
        match (sign_and_send_transaction env.chain1 env.privateKey).result with
        | .error e => innerCatch e env.uuidHex
        | .ok receipt1 =>
          let _requestId := extractLoop topicVal 1 env.mcpIntegrationAddress receipt1.logs
          match (sign_and_send_transaction env.chain2 env.privateKey).result with
          | .error e => innerCatch e env.uuidHex
          | .ok receipt2 =>
            .ok (extractLoop topicHex (fallbackId env.uuidHex)
                   env.mcpIntegrationAddress receipt2.logs)
      else .ok (fallbackId env.uuidHex)
    match innerOutcome with
    | .error e => .error e
    | .ok documentId =>
      .ok { success := true
            document_id := some documentId
            document_content := some content
            document_hash := some documentHash
            message := (pstr ("Document generated and registered with ID: ")) ++ documentId }

/-- `generate_legal_document` tool (mcp-server.py:200-316): the body plus
the outer `except ValueError` / `except Exception` handlers, both of
which convert the exception into a structured failure dictionary. -/
def generate_legal_document (env : GenEnv) (documentType requirements : PyStr) :
    GenResult :=
  match generateBody env documentType requirements with
  | .ok r => r
  | .error e =>
    { success := false
      document_id := none
      document_content := none
      document_hash := none
      message := (pstr ("Error generating document: ")) ++ e.text }

/-- Identifier formatting in `verify_document` (mcp-server.py:342-347):
a 0x-prefixed input passes through unchanged; any other input is
left-justified and zero-padded to 64 characters and prefixed with
`"0x"` (the input's own characters are used as the hex digits). -/
def formatDocumentId (documentId : PyStr) : PyStr :=
  if startsWith0x documentId then documentId
  else (pstr ("0x")) ++ ljust documentId 64 '0'

/-- The dictionary returned by `verify_document`. -/
structure VerResult where
  success : Bool
  verified : Option Bool
  document_id : Option PyStr
  document_hash : Option PyStr
  message : PyStr
deriving DecidableEq, Repr

/-- Environment of one `verify_document` call.  `verifyCall` models
`Web3.to_bytes` on both arguments followed by
`document_registry_contract.functions.verifyDocument(id, hash).call()`
(mcp-server.py:359-367), as a function of the formatted identifier and
the digest hex string, returning the boolean or the raised exception. -/
structure VerifyEnv where
  hasLifespanCtx : Bool
  hasRegistryContract : Bool
  connected : Bool
  verifyCall : PyStr → PyStr → Except PyErr Bool

/-- The success dictionary of `verify_document` (mcp-server.py:388-395). -/
def verifyResultRecord (documentId documentHash : PyStr) (verified : Bool) : VerResult :=
  { success := true
    verified := some verified
    document_id := some documentId
    document_hash := some documentHash
    message :=
      if verified then pstr ("Document is authentic and unaltered.")
      else pstr ("Document verification failed. The document may have been altered.") }

/-- Body of the outer `try` of `verify_document` (mcp-server.py:326-395):
attribute checks, digest, identifier formatting, then the verification
block — `verified` defaults to `True`; when connected the registry is
called; a `ValueError` containing "execution reverted" returns the
explicit failure dictionary, any other `ValueError` is re-raised, and
any other exception is swallowed leaving the simulated `True`. -/
def verifyBody (env : VerifyEnv) (documentId contentArg : PyStr) :
    Except PyErr VerResult :=
  if env.hasLifespanCtx = false then
    .error (.valueError (pstr ("Lifespan context not initialized")))
  else if env.hasRegistryContract = false then
    .error (.valueError (pstr ("Document registry contract not initialized in context")))
  else
    let documentHash := keccakHex contentArg
    let formattedId := formatDocumentId documentId
    if env.connected then
      match env.verifyCall formattedId documentHash with
      | .ok b => .ok (verifyResultRecord documentId documentHash b)
      | .error (.valueError m) =>
        if strContains (lowerStr m) (pstr ("execution reverted")) then
          .ok { success := false
                verified := some false
                document_id := some documentId
                document_hash := some documentHash
                message := (pstr ("Document verification failed: ")) ++ m }
        else .error (.valueError m)
      | .error _ => .ok (verifyResultRecord documentId documentHash true)
    else .ok (verifyResultRecord documentId documentHash true)

/-- `verify_document` tool (mcp-server.py:318-409): the body plus the
outer `except` handlers converting any escaped exception into a
structured failure dictionary. -/
def verify_document (env : VerifyEnv) (documentId contentArg : PyStr) : VerResult :=
  match verifyBody env documentId contentArg with
  | .ok r => r
  | .error e =>
    { success := false
      verified := none
      document_id := none
      document_hash := none
      message := (pstr ("Error verifying document: ")) ++ e.text }

/-- The zero placeholder address used for missing contract configuration
and for the fallback context (mcp-server.py:49-50, :142). -/
def zeroAddress : PyStr := pstr ("0x0000000000000000000000000000000000000000")

/-- The zero placeholder private key of the fallback context
(mcp-server.py:143). -/
def zeroPrivateKey : PyStr :=
  pstr ("0x0000000000000000000000000000000000000000000000000000000000000000")

/-- The hard-coded default RPC endpoint (mcp-server.py:56). -/
def defaultInfuraUrl : PyStr :=
  pstr ("https://sepolia.infura.io/v3/9aa3d95b3bc440fa88ea12eaa4456161")

/-- Python falsiness of an optional environment string: unset or empty. -/
def isFalsy : Option PyStr → Bool
  | none => true
  | some s => s.isEmpty

/-- The `BlockchainContext` dataclass (mcp-server.py:28-34), with the two
contract objects represented by the addresses they are bound to. -/
structure BlockchainContext where
  wallet_address : PyStr
  private_key : PyStr
  mcp_integration_address : PyStr
  document_registry_address : PyStr
deriving DecidableEq, Repr

/-- Startup environment of `app_lifespan`: the configuration variables,
whether `provider.is_connected()` answers `True`, the random key drawn
when `PRIVATE_KEY` is unset, and the outcome of deriving the account
from the key (`ValueError` on a malformed key). -/
structure StartupEnv where
  documentRegistryAddressEnv : Option PyStr
  mcpIntegrationAddressEnv : Option PyStr
  sepoliaRpcUrlEnv : Option PyStr
  connected : Bool
  privateKeyEnv : Option PyStr
  randomKeyHex : PyStr
  fromKeyResult : Except PyErr PyStr
deriving DecidableEq, Repr

/-- The observable outcome of entering the `app_lifespan` context
manager: either it yields a context, or the exception it re-raises
escapes, or the generator finishes without ever yielding (in which case
`asynccontextmanager` raises a `RuntimeError` at the `async with`). -/
inductive LifespanOutcome where
  | yielded (ctx : BlockchainContext)
  | raised (e : PyErr)
  | didNotYield
deriving DecidableEq, Repr

/-- The context built by `create_fallback_context_and_yield`
(mcp-server.py:132-148).  Note the function is a plain generator: the
`except` branches of `app_lifespan` call it but never iterate the
returned generator object, so this context is never actually yielded to
the caller. -/
def create_fallback_context_and_yield : BlockchainContext :=
  { wallet_address := zeroAddress
    private_key := zeroPrivateKey
    mcp_integration_address := zeroAddress
    document_registry_address := zeroAddress }

/-- `app_lifespan` (mcp-server.py:36-131): missing contract addresses are
replaced by the zero address, a missing RPC URL by the default endpoint;
an unreachable endpoint raises `ConnectionError`, which the
`except ConnectionError` clause re-raises; a missing private key is
replaced by a random one and a `0x` prefix is normalized; a failure while
deriving the account reaches the `except ValueError` / `except Exception`
clauses, which call `create_fallback_context_and_yield()` without
iterating it, so the generator ends without yielding. -/
def app_lifespan (env : StartupEnv) : LifespanOutcome :=
  let bothAddrs :=
    isFalsy env.documentRegistryAddressEnv || isFalsy env.mcpIntegrationAddressEnv
  let documentRegistryAddress :=
    if bothAddrs then zeroAddress else env.documentRegistryAddressEnv.getD []
  let mcpIntegrationAddress :=
    if bothAddrs then zeroAddress else env.mcpIntegrationAddressEnv.getD []
  let rpcUrl :=
    if isFalsy env.sepoliaRpcUrlEnv then defaultInfuraUrl
    else env.sepoliaRpcUrlEnv.getD []
  if env.connected = false then
    .raised (.connectionError ((pstr ("Could not connect to Ethereum node at ")) ++ rpcUrl))
  else
    let privateKeyRaw :=
      if isFalsy env.privateKeyEnv then (pstr ("0x")) ++ env.randomKeyHex
      else env.privateKeyEnv.getD []
    let privateKeyFinal :=
      if startsWith0x privateKeyRaw then privateKeyRaw
      else (pstr ("0x")) ++ privateKeyRaw
    match env.fromKeyResult with
    | .ok addr =>
      .yielded
        { wallet_address := addr
          private_key := privateKeyFinal
          mcp_integration_address := mcpIntegrationAddress
          document_registry_address := documentRegistryAddress }
    | .error _ => .didNotYield

/-! ## Concrete environments used by the claim theorems -/

/-- A ledger environment in which every RPC interaction succeeds. -/
def idleChainEnv : ChainEnv :=
  { gasPrice := .ok 100
    txCountLatest := .ok 3
    txCountPending := .ok 3
    chainId := .ok 11155111
    buildResult := .ok ()
    signResult := .ok ()
    sendResult := .ok (pstr ("0xabcdef"))
    waitResult := .ok { status := 1, blockNumber := 10, logs := [] } }

/-- Startup with a configured but unreachable endpoint. -/
def c1UnreachableEnv : StartupEnv :=
  { documentRegistryAddressEnv := some (pstr ("0x1111111111111111111111111111111111111111"))
    mcpIntegrationAddressEnv := some (pstr ("0x2222222222222222222222222222222222222222"))
    sepoliaRpcUrlEnv := some (pstr ("http://localhost:8545"))
    connected := false
    privateKeyEnv := some (pstr ("0xabc1"))
    randomKeyHex := pstr ("")
    fromKeyResult := .ok (pstr ("0x3333333333333333333333333333333333333333")) }

/-- Startup with a reachable endpoint but a malformed private key, so the
`except ValueError` branch (the one that attempts the fallback) runs. -/
def c1BadKeyEnv : StartupEnv :=
  { c1UnreachableEnv with
    connected := true
    fromKeyResult := .error (.valueError (pstr ("The private key must be exactly 32 bytes long"))) }

/-- A disconnected verify environment whose registry would answer `False`
if it were ever consulted. -/
def c2Env : VerifyEnv :=
  { hasLifespanCtx := true
    hasRegistryContract := true
    connected := false
    verifyCall := fun _ _ => .ok false }

/-- A chain environment whose confirmation wait times out (web3
`TimeExhausted`), every step before it succeeding. -/
def c3TimeoutChainEnv : ChainEnv :=
  { idleChainEnv with
    waitResult := .error (.timeExhausted (pstr ("Transaction is not in the chain after 120 seconds"))) }

/-- A connected generate environment whose first transaction times out. -/
def c3GenEnv : GenEnv :=
  { hasLifespanCtx := true
    hasMcpContract := true
    connected := true
    mcpIntegrationAddress := pstr ("0x2222222222222222222222222222222222222222")
    privateKey := pstr ("0xaaa1")
    chain1 := c3TimeoutChainEnv
    chain2 := c3TimeoutChainEnv
    uuidHex := pstr ("0123456789abcdef0123456789abcdef") }

/-- Does a message mention unknown or pending status (case-insensitively)? -/
def msgMentionsUnknownOrPending (m : PyStr) : Bool :=
  strContains (lowerStr m) (pstr ("unknown")) || strContains (lowerStr m) (pstr ("pending"))

/-- A disconnected generate environment, exercising the mock path. -/
def c4GenEnv : GenEnv :=
  { hasLifespanCtx := true
    hasMcpContract := true
    connected := false
    mcpIntegrationAddress := pstr ("0x2222222222222222222222222222222222222222")
    privateKey := pstr ("0xaaa1")
    chain1 := idleChainEnv
    chain2 := idleChainEnv
    uuidHex := pstr ("00112233445566778899aabbccddeeff") }

/-- Owner contract address for the event-extractor counterexample. -/
def c5OwnerAddress : PyStr := pstr ("0x2222222222222222222222222222222222222222")

/-- Two log entries that both match the owner address and topic-count
test, carrying fields 1 and 2 in emission order. -/
def c5Logs : List LogEntry :=
  [ { address := c5OwnerAddress, topics := [7, 1] }
  , { address := c5OwnerAddress, topics := [7, 2] } ]

/-- A receipt whose status is revert (0). -/
def c6RevertReceipt : Receipt := { status := 0, blockNumber := 12, logs := [] }

/-- A chain environment whose transaction is mined but reverts. -/
def c6Env : ChainEnv := { idleChainEnv with waitResult := .ok c6RevertReceipt }

/-- A chain environment whose broadcast is rejected for insufficient
balance. -/
def c6FundsEnv : ChainEnv :=
  { idleChainEnv with
    sendResult := .error (.valueError (pstr ("Insufficient funds for gas * price + value"))) }

/-- A chain environment with 3 confirmed and 5 pending transactions. -/
def c7Env : ChainEnv := { idleChainEnv with txCountLatest := .ok 3, txCountPending := .ok 5 }

/-- A chain environment whose gas-price read fails. -/
def c7FailEnv : ChainEnv :=
  { idleChainEnv with gasPrice := .error (.connectionError (pstr ("node unreachable"))) }

/-- A generate environment whose lifespan context attribute is missing. -/
def c10GenEnv : GenEnv := { c4GenEnv with hasLifespanCtx := false }

/-- A verify environment whose lifespan context attribute is missing. -/
def c10VerEnv : VerifyEnv :=
  { hasLifespanCtx := false
    hasRegistryContract := true
    connected := false
    verifyCall := fun _ _ => .ok true }

/-! ## Helper lemmas -/

/-- `hexPad` always renders exactly `w` digits. -/
theorem hexPad_length (w : Nat) : ∀ n, (hexPad w n).length = w := by
  induction w with
  | zero => intro n; rfl
  | succ k ih => intro n; simp [hexPad, ih]

/-- The modelled digest hex string is always 66 characters (0x + 64). -/
theorem keccakHex_length (s : PyStr) : (keccakHex s).length = 66 := by
  simp [keccakHex, hexPad_length]

/-- A rendered 32-byte topic is always 66 characters (0x + 64). -/
theorem topicHex_length (t : Nat) : (topicHex t).length = 66 := by
  simp [topicHex, hexPad_length]

/-- The event-extraction fold either keeps its default or returns `f` of
some topic field. -/
theorem extractLoop_cases {α : Type} (f : Nat → α) (ownerAddress : PyStr)
    (logs : List LogEntry) :
    ∀ dflt, extractLoop f dflt ownerAddress logs = dflt ∨
      ∃ t, extractLoop f dflt ownerAddress logs = f t := by
  induction logs with
  | nil => intro d; left; rfl
  | cons lg ls ih =>
    intro d
    have hstep : extractLoop f d ownerAddress (lg :: ls) =
        extractLoop f
          (if 1 < lg.topics.length ∧ lowerStr lg.address = lowerStr ownerAddress then
            f (lg.topics.getD 1 0)
          else d)
          ownerAddress ls := rfl
    rw [hstep]
    rcases ih (if 1 < lg.topics.length ∧ lowerStr lg.address = lowerStr ownerAddress then
        f (lg.topics.getD 1 0) else d) with h2 | ⟨t, h2⟩
    · rw [h2]
      by_cases hc : 1 < lg.topics.length ∧ lowerStr lg.address = lowerStr ownerAddress
      · right
        exact ⟨lg.topics.getD 1 0, by rw [if_pos hc]⟩
      · left
        rw [if_neg hc]
    · right
      exact ⟨t, h2⟩

/-- Every success dictionary produced by the generate body carries the
digest of the templated content, and a document id that is either the
random fallback id or a rendered 32-byte event topic. -/
theorem generateBody_ok_shape (env : GenEnv) (documentType requirements : PyStr)
    (r : GenResult) (h : generateBody env documentType requirements = .ok r) :
    r.success = true ∧
    r.document_hash = some (keccakHex (documentContent documentType requirements)) ∧
    ∃ docId, r.document_id = some docId ∧
      (docId = fallbackId env.uuidHex ∨ ∃ t, docId = topicHex t) := by
  by_cases hl : env.hasLifespanCtx = false
  · simp [generateBody, hl] at h
  · by_cases hm : env.hasMcpContract = false
    · simp [generateBody, hl, hm] at h
    · by_cases hc : env.connected
      · simp only [generateBody, hl, hm, if_false, hc, if_true] at h
        cases hr1 : (sign_and_send_transaction env.chain1 env.privateKey).result with
        | error e =>
          rw [hr1] at h
          cases e with
          | valueError m => simp [innerCatch] at h
          | connectionError m =>
            simp [innerCatch] at h
            rw [← h]
            exact ⟨rfl, rfl, fallbackId env.uuidHex, rfl, Or.inl rfl⟩
          | timeExhausted m =>
            simp [innerCatch] at h
            rw [← h]
            exact ⟨rfl, rfl, fallbackId env.uuidHex, rfl, Or.inl rfl⟩
          | otherError m =>
            simp [innerCatch] at h
            rw [← h]
            exact ⟨rfl, rfl, fallbackId env.uuidHex, rfl, Or.inl rfl⟩
        | ok receipt1 =>
          rw [hr1] at h
          cases hr2 : (sign_and_send_transaction env.chain2 env.privateKey).result with
          | error e =>
            rw [hr2] at h
            cases e with
            | valueError m => simp [innerCatch] at h
            | connectionError m =>
              simp [innerCatch] at h
              rw [← h]
              exact ⟨rfl, rfl, fallbackId env.uuidHex, rfl, Or.inl rfl⟩
            | timeExhausted m =>
              simp [innerCatch] at h
              rw [← h]
              exact ⟨rfl, rfl, fallbackId env.uuidHex, rfl, Or.inl rfl⟩
            | otherError m =>
              simp [innerCatch] at h
              rw [← h]
              exact ⟨rfl, rfl, fallbackId env.uuidHex, rfl, Or.inl rfl⟩
          | ok receipt2 =>
            rw [hr2] at h
            simp at h
            subst h
            refine ⟨rfl, rfl,
              extractLoop topicHex (fallbackId env.uuidHex)
                env.mcpIntegrationAddress receipt2.logs, rfl, ?_⟩
            rcases extractLoop_cases topicHex env.mcpIntegrationAddress receipt2.logs
                (fallbackId env.uuidHex) with h2 | ⟨t, h2⟩
            · exact Or.inl h2
            · exact Or.inr ⟨t, h2⟩
      · simp only [generateBody, hl, hm, if_false, hc] at h
        simp at h
        subst h
        exact ⟨rfl, rfl, fallbackId env.uuidHex, rfl, Or.inl rfl⟩

/-! ## Claim theorems -/

/-- C1 (code bug): with the ledger endpoint unreachable, `app_lifespan`
re-raises `ConnectionError` instead of yielding a degraded context, so
initialization crashes the host `async with`; and in the branches that do
attempt the fallback (here: a malformed private key), the fallback
generator is never iterated, so the lifespan finishes without yielding
any context at all.  No startup configuration yields a degraded context. -/
theorem C1_startup_crashes_instead_of_degrading :
    app_lifespan c1UnreachableEnv =
      .raised (.connectionError
        ((pstr ("Could not connect to Ethereum node at ")) ++ (pstr ("http://localhost:8545")))) ∧
    app_lifespan c1BadKeyEnv = .didNotYield := by
  constructor
  · rfl
  · rfl

/-- C2: whenever the provider reports no live connection, or the
read-only registry call raises an exception other than `ValueError`,
`verify_document` returns success=true and verified=true with the
message "Document is authentic and unaltered.". -/
theorem C2_disconnected_or_failed_verify_reports_authentic
    (env : VerifyEnv) (documentId contentArg : PyStr)
    (h1 : env.hasLifespanCtx = true) (h2 : env.hasRegistryContract = true)
    (h3 : env.connected = false ∨
      ∃ e, env.verifyCall (formatDocumentId documentId) (keccakHex contentArg) = .error e ∧
        e.isValueError = false) :
    verify_document env documentId contentArg =
      verifyResultRecord documentId (keccakHex contentArg) true := by
  rcases h3 with hc | ⟨e, he, hv⟩
  · simp [verify_document, verifyBody, h1, h2, hc]
  · cases hcon : env.connected with
    | false => simp [verify_document, verifyBody, h1, h2, hcon]
    | true =>
      cases e with
      | valueError m => simp [PyErr.isValueError] at hv
      | connectionError m => simp [verify_document, verifyBody, h1, h2, hcon, he]
      | timeExhausted m => simp [verify_document, verifyBody, h1, h2, hcon, he]
      | otherError m => simp [verify_document, verifyBody, h1, h2, hcon, he]

/-- C2 witness: a concrete disconnected environment whose registry would
answer `False` if asked; the tool still reports authentic. -/
theorem C2_witness :
    verify_document c2Env (pstr ("doc-1")) (pstr ("hello")) =
      verifyResultRecord (pstr ("doc-1")) (keccakHex (pstr ("hello"))) true :=
  C2_disconnected_or_failed_verify_reports_authentic c2Env (pstr ("doc-1")) (pstr ("hello"))
    rfl rfl (Or.inl rfl)

/-- C5 counterexample: with two log entries matching the owner address
and topic test, carrying fields 1 then 2 in emission order, the request-id
extraction loop returns 2 — the last match — not the first. -/
theorem C5_counterexample :
    extractLoop topicVal 1 c5OwnerAddress c5Logs = 2 ∧
    extractLoop topicVal 1 c5OwnerAddress c5Logs ≠ 1 := by
  decide

/-- C5 amended: both extraction loops (`extractLoop` instantiated at
`topicVal` for request ids and `topicHex` for document ids) fold with no
`break`, so the LAST matching entry in array order determines the result,
and the default survives only when no entry matches. -/
theorem C5_amended {α : Type} (f : Nat → α) (dflt : α) (ownerAddress : PyStr)
    (l1 : List LogEntry) (lg : LogEntry) :
    extractLoop f dflt ownerAddress [] = dflt ∧
    extractLoop f dflt ownerAddress (l1 ++ [lg]) =
      (if 1 < lg.topics.length ∧ lowerStr lg.address = lowerStr ownerAddress then
        f (lg.topics.getD 1 0)
      else extractLoop f dflt ownerAddress l1) := by
  refine ⟨rfl, ?_⟩
  unfold extractLoop
  rw [List.foldl_append]
  rfl

/-- C8 counterexample: the 0x-prefixed but short input "0xdead" passes
through unchanged, so the result is 2 bytes wide, not 32. -/
theorem C8_counterexample :
    formatDocumentId (pstr ("0xdead")) = pstr ("0xdead") ∧
    hexByteWidth (formatDocumentId (pstr ("0xdead"))) = 2 ∧
    hexByteWidth (formatDocumentId (pstr ("0xdead"))) ≠ 32 := by
  decide

/-- C8 amended: any 0x-prefixed input passes through unchanged whatever
its width; any other input has its own characters left-justified and
zero-padded to 64 and the prefix "0x" prepended, with no truncation —
the result is 32 bytes wide exactly when the raw input is at most 64
characters long. -/
theorem C8_amended (s : PyStr) :
    (startsWith0x s = true → formatDocumentId s = s) ∧
    (startsWith0x s = false →
      formatDocumentId s = (pstr ("0x")) ++ ljust s 64 '0' ∧
      (s.length ≤ 64 → (formatDocumentId s).length = 66) ∧
      (64 < s.length → (formatDocumentId s).length = s.length + 2)) := by
  constructor
  · intro h
    simp [formatDocumentId, h]
  · intro h
    have hf : formatDocumentId s = (pstr ("0x")) ++ ljust s 64 '0' := by
      simp [formatDocumentId, h]
    have h0 : (pstr ("0x")).length = 2 := rfl
    have hlen : (formatDocumentId s).length = 2 + (s.length + (64 - s.length)) := by
      rw [hf, List.length_append, h0, ljust, List.length_append, List.length_replicate]
    exact ⟨hf, fun hle => by rw [hlen]; omega, fun hgt => by rw [hlen]; omega⟩

/-- C8 witness: concrete instances of both branches of the amended claim. -/
theorem C8_witness :
    formatDocumentId (pstr ("0xdeadbeef")) = pstr ("0xdeadbeef") ∧
    formatDocumentId (pstr ("abc")) = (pstr ("0x")) ++ ljust (pstr ("abc")) 64 '0' ∧
    (formatDocumentId (pstr ("abc"))).length = 66 := by
  refine ⟨(C8_amended (pstr ("0xdeadbeef"))).1 (by decide), ?_, ?_⟩
  · exact ((C8_amended (pstr ("abc"))).2 (by decide)).1
  · exact ((C8_amended (pstr ("abc"))).2 (by decide)).2.1 (by decide)

/-- C9: identifier normalization is idempotent — one application of
`formatDocumentId` always yields a 0x-prefixed string, which the next
application passes through unchanged. -/
theorem C9_formatDocumentId_idempotent (x : PyStr) :
    formatDocumentId (formatDocumentId x) = formatDocumentId x := by
  cases h : startsWith0x x with
  | true => simp [formatDocumentId, h]
  | false =>
    have h2 : startsWith0x ((pstr ("0x")) ++ ljust x 64 '0') = true := rfl
    simp [formatDocumentId, h, h2]

/-- C3 counterexample: when the confirmation wait times out
(`TimeExhausted`), the returned message does not indicate unknown or
pending status — it asserts the document was registered. -/
theorem C3_counterexample :
    (generate_legal_document c3GenEnv (pstr ("NDA")) (pstr ("between A and B"))).success = true ∧
    msgMentionsUnknownOrPending
      (generate_legal_document c3GenEnv (pstr ("NDA")) (pstr ("between A and B"))).message = false ∧
    strContains
      (lowerStr (generate_legal_document c3GenEnv (pstr ("NDA")) (pstr ("between A and B"))).message)
      (pstr ("registered")) = true := by
  decide

/-- C3 amended: a confirmation timeout is swallowed by the generic
exception handler — the call returns success=true with a simulated
fallback identifier and the message "Document generated and registered
with ID: ...", which is not phrased as a transaction failure but asserts
registration instead of indicating unknown/pending status. -/
theorem C3_amended (env : GenEnv) (documentType requirements : PyStr)
    (gp n cid : Nat) (txh m : PyStr)
    (hl : env.hasLifespanCtx = true) (hm : env.hasMcpContract = true)
    (hc : env.connected = true)
    (h1 : env.chain1.gasPrice = .ok gp) (h2 : env.chain1.txCountLatest = .ok n)
    (h3 : env.chain1.chainId = .ok cid) (h4 : env.chain1.buildResult = .ok ())
    (h5 : env.chain1.signResult = .ok ()) (h6 : env.chain1.sendResult = .ok txh)
    (h7 : env.chain1.waitResult = .error (.timeExhausted m)) :
    (generate_legal_document env documentType requirements).success = true ∧
    (generate_legal_document env documentType requirements).message =
      (pstr ("Document generated and registered with ID: ")) ++ fallbackId env.uuidHex := by
  have hs : (sign_and_send_transaction env.chain1 env.privateKey).result =
      .error (.timeExhausted m) := by
    simp [sign_and_send_transaction, signAndSendRaw, getTransactionCount,
      h1, h2, h3, h4, h5, h6, h7]
  constructor <;>
    simp [generate_legal_document, generateBody, hl, hm, hc, hs, innerCatch]

/-- C3 witness: the amended claim at a concrete timing-out environment. -/
theorem C3_witness :
    (generate_legal_document c3GenEnv (pstr ("NDA")) (pstr ("between A and B"))).success = true ∧
    (generate_legal_document c3GenEnv (pstr ("NDA")) (pstr ("between A and B"))).message =
      (pstr ("Document generated and registered with ID: ")) ++ fallbackId c3GenEnv.uuidHex :=
  C3_amended c3GenEnv (pstr ("NDA")) (pstr ("between A and B"))
    100 3 11155111 (pstr ("0xabcdef"))
    (pstr ("Transaction is not in the chain after 120 seconds"))
    rfl rfl rfl rfl rfl rfl rfl rfl rfl rfl

/-- C4 counterexample: on the mock path the returned identifier is
`"0x" + uuid4().hex[:24]` — 12 bytes, not 32 — while the digest is
32 bytes, on a result with success=true. -/
theorem C4_counterexample :
    (generate_legal_document c4GenEnv (pstr ("NDA")) (pstr ("between A and B"))).success = true ∧
    Option.map hexByteWidth
      (generate_legal_document c4GenEnv (pstr ("NDA")) (pstr ("between A and B"))).document_id =
      some 12 ∧
    Option.map hexByteWidth
      (generate_legal_document c4GenEnv (pstr ("NDA")) (pstr ("between A and B"))).document_hash =
      some 32 ∧
    (12 : Nat) ≠ 32 := by
  decide

/-- C4 amended: every success=true result carries a 32-byte digest, and
its identifier is either a 32-byte value rendered from an event topic or
the fallback `"0x" + uuid4().hex[:24]`, which is only 12 bytes wide. -/
theorem C4_amended (env : GenEnv) (documentType requirements : PyStr)
    (hs : (generate_legal_document env documentType requirements).success = true)
    (hu : env.uuidHex.length = 32) :
    Option.map hexByteWidth
      (generate_legal_document env documentType requirements).document_hash = some 32 ∧
    (Option.map hexByteWidth
        (generate_legal_document env documentType requirements).document_id = some 32 ∨
      ((generate_legal_document env documentType requirements).document_id =
          some (fallbackId env.uuidHex) ∧
        Option.map hexByteWidth
          (generate_legal_document env documentType requirements).document_id = some 12)) := by
  cases hb : generateBody env documentType requirements with
  | error e => simp [generate_legal_document, hb] at hs
  | ok r =>
    have hg : generate_legal_document env documentType requirements = r := by
      simp [generate_legal_document, hb]
    obtain ⟨hsucc, hhash, docId, hid, hcase⟩ :=
      generateBody_ok_shape env documentType requirements r hb
    rw [hg, hhash, hid]
    constructor
    · simp [hexByteWidth, keccakHex_length]
    · rcases hcase with hfb | ⟨t, ht⟩
      · right
        subst hfb
        have hlen : (fallbackId env.uuidHex).length = 26 := by
          have h0 : (pstr ("0x")).length = 2 := rfl
          simp [fallbackId, List.length_append, h0, List.length_take, hu]
        exact ⟨rfl, by simp [hexByteWidth, hlen]⟩
      · left
        subst ht
        simp [hexByteWidth, topicHex_length]

/-- C4 witness: the amended claim at the concrete mock-path environment. -/
theorem C4_witness :
    Option.map hexByteWidth
      (generate_legal_document c4GenEnv (pstr ("NDA")) (pstr ("r"))).document_hash = some 32 ∧
    (Option.map hexByteWidth
        (generate_legal_document c4GenEnv (pstr ("NDA")) (pstr ("r"))).document_id = some 32 ∨
      ((generate_legal_document c4GenEnv (pstr ("NDA")) (pstr ("r"))).document_id =
          some (fallbackId c4GenEnv.uuidHex) ∧
        Option.map hexByteWidth
          (generate_legal_document c4GenEnv (pstr ("NDA")) (pstr ("r"))).document_id = some 12)) :=
  C4_amended c4GenEnv (pstr ("NDA")) (pstr ("r")) (by decide) (by decide)

/-- C6 counterexample: a mined receipt with revert status 0 is returned
as a successful result — no `ExecutionReverted` failure is produced. -/
theorem C6_counterexample :
    (sign_and_send_transaction c6Env (pstr ("0xaaa1"))).result = .ok c6RevertReceipt ∧
    c6RevertReceipt.status = 0 := by
  constructor
  · rfl
  · rfl

/-- C6 amended: the tracker performs no receipt status check — any
receipt, revert status included, is returned as success; a pre-broadcast
`ValueError` whose message contains "insufficient funds" (matched on the
lowercased text) is re-raised as the distinguished insufficient-funds
`ValueError`. -/
theorem C6_amended (env1 env2 : ChainEnv) (pk : PyStr)
    (gp n cid : Nat) (txh : PyStr) (r : Receipt) (m : PyStr)
    (h1 : env1.gasPrice = .ok gp) (h2 : env1.txCountLatest = .ok n)
    (h3 : env1.chainId = .ok cid) (h4 : env1.buildResult = .ok ())
    (h5 : env1.signResult = .ok ()) (h6 : env1.sendResult = .ok txh)
    (h7 : env1.waitResult = .ok r)
    (g1 : env2.gasPrice = .ok gp) (g2 : env2.txCountLatest = .ok n)
    (g3 : env2.chainId = .ok cid) (g4 : env2.buildResult = .ok ())
    (g5 : env2.signResult = .ok ())
    (g6 : env2.sendResult = .error (.valueError m))
    (gsub : strContains (lowerStr m) (pstr ("insufficient funds")) = true) :
    (sign_and_send_transaction env1 pk).result = .ok r ∧
    (sign_and_send_transaction env2 pk).result =
      .error (.valueError ((pstr ("Wallet has insufficient funds: ")) ++ m)) := by
  constructor
  · simp [sign_and_send_transaction, signAndSendRaw, getTransactionCount,
      h1, h2, h3, h4, h5, h6, h7]
  · simp [sign_and_send_transaction, signAndSendRaw, getTransactionCount,
      g1, g2, g3, g4, g5, g6, gsub]

/-- C6 witness: the amended claim at concrete reverting and
insufficient-funds environments. -/
theorem C6_witness :
    (sign_and_send_transaction c6Env (pstr ("0xbbb1"))).result = .ok c6RevertReceipt ∧
    (sign_and_send_transaction c6FundsEnv (pstr ("0xbbb1"))).result =
      .error (.valueError ((pstr ("Wallet has insufficient funds: ")) ++
        (pstr ("Insufficient funds for gas * price + value")))) :=
  C6_amended c6Env c6FundsEnv (pstr ("0xbbb1")) 100 3 11155111 (pstr ("0xabcdef"))
    c6RevertReceipt (pstr ("Insufficient funds for gas * price + value"))
    rfl rfl rfl rfl rfl rfl rfl rfl rfl rfl rfl rfl rfl (by decide)

/-- C7 counterexample: the nonce comes from `get_transaction_count` with
web3's default block `latest`, not `pending`: with 3 confirmed and 5
pending transactions the signed transaction carries nonce 3. -/
theorem C7_counterexample :
    (signAndSendRaw c7Env (pstr ("0xccc1"))).signedTx =
      some { transaction :=
              { chainId := 11155111, gas := 2000000, gasPrice := 110, nonce := 3 }
             privateKey := pstr ("0xccc1") } ∧
    getTransactionCount c7Env BlockId.pending = .ok 5 ∧
    (3 : Nat) ≠ 5 := by
  refine ⟨rfl, rfl, by decide⟩

/-- C7 amended: the steps occur in order — gas price read and multiplied
by the bounded positive factor 1.1 (floored), the sender's LATEST
(confirmed) transaction count read as the nonce, the transaction
assembled with the fixed 2,000,000 gas limit and the chain id, and only
then signed with the context's credential; a gas-price read failure
aborts before any signing step. -/
theorem C7_amended (env1 env2 : ChainEnv) (pk : PyStr)
    (gp n cid : Nat) (txh : PyStr) (e : PyErr)
    (h1 : env1.gasPrice = .ok gp) (h2 : env1.txCountLatest = .ok n)
    (h3 : env1.chainId = .ok cid) (h4 : env1.buildResult = .ok ())
    (h5 : env1.signResult = .ok ()) (h6 : env1.sendResult = .ok txh)
    (g1 : env2.gasPrice = .error e) :
    (signAndSendRaw env1 pk).trace =
      [.readGasPrice, .readNonce, .readChainId, .buildTx, .signTx, .sendTx, .waitReceipt] ∧
    (signAndSendRaw env1 pk).signedTx =
      some { transaction :=
              { chainId := cid, gas := 2000000, gasPrice := gp * 11 / 10, nonce := n }
             privateKey := pk } ∧
    (signAndSendRaw env2 pk).result = .error e ∧
    (signAndSendRaw env2 pk).signedTx = none ∧
    TxStep.signTx ∉ (signAndSendRaw env2 pk).trace := by
  refine ⟨?_, ?_, ?_, ?_, ?_⟩
  · cases hw : env1.waitResult with
    | error e2 =>
      simp [signAndSendRaw, getTransactionCount, h1, h2, h3, h4, h5, h6, hw]
    | ok r =>
      simp [signAndSendRaw, getTransactionCount, h1, h2, h3, h4, h5, h6, hw]
  · cases hw : env1.waitResult with
    | error e2 =>
      simp [signAndSendRaw, getTransactionCount, h1, h2, h3, h4, h5, h6, hw]
    | ok r =>
      simp [signAndSendRaw, getTransactionCount, h1, h2, h3, h4, h5, h6, hw]
  · simp [signAndSendRaw, g1]
  · simp [signAndSendRaw, g1]
  · simp [signAndSendRaw, g1]

/-- C7 witness: the amended claim at concrete environments. -/
theorem C7_witness :
    (signAndSendRaw c7Env (pstr ("0xddd1"))).trace =
      [.readGasPrice, .readNonce, .readChainId, .buildTx, .signTx, .sendTx, .waitReceipt] ∧
    (signAndSendRaw c7Env (pstr ("0xddd1"))).signedTx =
      some { transaction :=
              { chainId := 11155111, gas := 2000000, gasPrice := 110, nonce := 3 }
             privateKey := pstr ("0xddd1") } ∧
    (signAndSendRaw c7FailEnv (pstr ("0xddd1"))).result =
      .error (.connectionError (pstr ("node unreachable"))) ∧
    (signAndSendRaw c7FailEnv (pstr ("0xddd1"))).signedTx = none ∧
    TxStep.signTx ∉ (signAndSendRaw c7FailEnv (pstr ("0xddd1"))).trace :=
  C7_amended c7Env c7FailEnv (pstr ("0xddd1")) 100 3 11155111 (pstr ("0xabcdef"))
    (.connectionError (pstr ("node unreachable")))
    rfl rfl rfl rfl rfl rfl rfl

/-- C10: every exception escaping the body of `generate_legal_document`
or `verify_document` is caught by the outer handlers and converted into
a structured dictionary with success=false and a human-readable message
embedding the exception text; the tool functions are total — no
exception value crosses the tool boundary. -/
theorem C10_failures_become_structured_results
    (genv : GenEnv) (dt req : PyStr) (eg : PyErr)
    (venv : VerifyEnv) (vid vc : PyStr) (ev : PyErr)
    (hg : generateBody genv dt req = .error eg)
    (hv : verifyBody venv vid vc = .error ev) :
    generate_legal_document genv dt req =
      { success := false
        document_id := none
        document_content := none
        document_hash := none
        message := (pstr ("Error generating document: ")) ++ eg.text } ∧
    verify_document venv vid vc =
      { success := false
        verified := none
        document_id := none
        document_hash := none
        message := (pstr ("Error verifying document: ")) ++ ev.text } := by
  constructor
  · simp [generate_legal_document, hg]
  · simp [verify_document, hv]

/-- C10 witness: concrete calls whose bodies raise `ValueError`. -/
theorem C10_witness :
    generate_legal_document c10GenEnv (pstr ("NDA")) (pstr ("r")) =
      { success := false
        document_id := none
        document_content := none
        document_hash := none
        message := (pstr ("Error generating document: ")) ++
          (PyErr.valueError (pstr ("Lifespan context not initialized"))).text } ∧
    verify_document c10VerEnv (pstr ("id")) (pstr ("c")) =
      { success := false
        verified := none
        document_id := none
        document_hash := none
        message := (pstr ("Error verifying document: ")) ++
          (PyErr.valueError (pstr ("Lifespan context not initialized"))).text } :=
  C10_failures_become_structured_results c10GenEnv (pstr ("NDA")) (pstr ("r"))
    (.valueError (pstr ("Lifespan context not initialized")))
    c10VerEnv (pstr ("id")) (pstr ("c"))
    (.valueError (pstr ("Lifespan context not initialized")))
    rfl rfl
